import Mathlib

/-!
Verification development for the wake-on-LAN management server
(source: src/src/main.rs). The shared state of the program is a pair of
maps guarded by mutual-exclusion locks: a device catalog
(`devices: Mutex<HashMap<String, Device>>`) and a connection registry
(`active_connections: Mutex<HashMap<String, Addr<WsConnection>>>`).
Hash maps are embedded as association lists with at most one entry per
key (insertion replaces the previous entry for the key, as HashMap
insert does); connection actor addresses are embedded as natural
numbers, since only their identity matters to the registry.
-/

namespace WolServer

/-- Device registration information (main.rs lines 12-22): the four
persisted fields of a device record. -/
structure Device where
  esp_id : String
  mac_address : String
  description : String
  password : String
  deriving DecidableEq, Repr

/-- Wake request body (main.rs lines 25-29). -/
structure WakeRequest where
  esp_id : String
  password : String
  deriving DecidableEq, Repr

/-- The device catalog map, embedding `HashMap<String, Device>`. -/
abbrev DeviceMap := List (String × Device)

/-- The connection registry map, embedding
`HashMap<String, Addr<WsConnection>>`; addresses are identified by a
natural number. -/
abbrev ConnMap := List (String × Nat)

/-- HashMap insert: replaces any previous entry for the key. -/
def mapInsert {α : Type} (m : List (String × α)) (k : String) (v : α) :
    List (String × α) :=
  (k, v) :: m.filter (fun p => p.1 != k)

/-- HashMap get (point read of the value stored at a key). -/
def mapGet {α : Type} (m : List (String × α)) (k : String) : Option α :=
  (m.find? (fun p => p.1 == k)).map (fun p => p.2)

/-- HashMap remove: drops the entry for the key, if any. -/
def mapRemove {α : Type} (m : List (String × α)) (k : String) :
    List (String × α) :=
  m.filter (fun p => p.1 != k)

/-- Number of entries stored under a given key. -/
def countKey {α : Type} (m : List (String × α)) (k : String) : Nat :=
  (m.filter (fun p => p.1 == k)).length

/-- An HTTP response, reduced to status code and body bytes. A body
produced by the `.json(...)` responder carries the JSON serialization of
the message (a quoted string); a body produced by `.body(...)` carries
the raw text. -/
structure HttpResp where
  status : Nat
  body : String
  deriving DecidableEq, Repr

/-- Response `HttpResponse::NotFound().json("Device not found")`
(main.rs line 160). -/
def respDeviceNotFound : HttpResp := { status := 404, body := "\"Device not found\"" }

/-- Response `HttpResponse::Unauthorized().json("Incorrect password")`
(main.rs line 129). -/
def respUnauthorized : HttpResp := { status := 401, body := "\"Incorrect password\"" }

/-- Response `HttpResponse::NotFound().json("Device offline")`
(main.rs line 155). -/
def respDeviceOffline : HttpResp := { status := 404, body := "\"Device offline\"" }

/-- Response `HttpResponse::Ok().json("Wake command sent")`
(main.rs line 146). -/
def respWakeSent : HttpResp := { status := 200, body := "\"Wake command sent\"" }

/-- Response `HttpResponse::InternalServerError().json("Failed to send wake command")`
(main.rs line 150). -/
def respDeliveryFailed : HttpResp := { status := 500, body := "\"Failed to send wake command\"" }

/-- Lowercase hexadecimal digit, as used by the serde_json escape
table. -/
def hexDigitChar (n : Nat) : Char :=
  if n < 10 then Char.ofNat (48 + n) else Char.ofNat (87 + n)

/-- serde_json escaping of one character inside a JSON string literal. -/
def jsonEscapeChar (c : Char) : String :=
  if c = '"' then "\\\""
  else if c = '\\' then "\\\\"
  else if c = Char.ofNat 8 then "\\b"
  else if c = Char.ofNat 9 then "\\t"
  else if c = Char.ofNat 10 then "\\n"
  else if c = Char.ofNat 12 then "\\f"
  else if c = Char.ofNat 13 then "\\r"
  else if c.toNat < 32 then
    "\\u00" ++ String.singleton (hexDigitChar (c.toNat / 16))
      ++ String.singleton (hexDigitChar (c.toNat % 16))
  else String.singleton c

/-- serde_json serialization of a string value. -/
def jsonEncodeString (s : String) : String :=
  "\"" ++ String.join (s.data.map jsonEscapeChar) ++ "\""

/-- Modelled from the spec: the serialized wake payload built by
`json!` at main.rs lines 138-141 and turned into a string by
`.to_string()`. The crate manifest fixing the serde_json feature set
(which determines object key order on serialization) is not under src,
so the field order of the serialized object is taken from the spec
(section 8 scenario table): `type` first, then `mac_address`, matching
the literal order of the `json!` expression. String escaping follows
the serde_json rules. -/
def wakeCommandJson (mac : String) : String :=
  "\x7b\"type\":\"wake\",\"mac_address\":" ++ jsonEncodeString mac ++ "\x7d"

/-- Outcome of `DeviceStore::save` (main.rs lines 57-64), as observed by
`register_device`: success, or an I/O error whose display string is
`e.to_string()`. -/
inductive SaveResult
  | ok
  | err (msg : String)
  deriving DecidableEq, Repr

/-- The register_device handler (main.rs lines 68-89): inserts the
record into the catalog keyed by its esp_id, then attempts the durable
save; the insert happens before (and regardless of) the save outcome.
Returns the catalog after the request and the HTTP response. -/
def register_device (d : DeviceMap) (dev : Device) (sv : SaveResult) :
    DeviceMap × HttpResp :=
  (mapInsert d dev.esp_id dev,
    match sv with
    | .ok => { status := 200, body := "\"Device registered successfully\"" }
    | .err e => { status := 500, body := e })

/-- The wake_device handler (main.rs lines 114-163) on the healthy-lock
path. `trySendOk` models whether `addr.try_send` succeeds. Returns the
HTTP response together with the list of (address, text frame) pairs
delivered to connections: on a successful send the one queued WsMessage
is written by the message handler as a single text frame. -/
def wake_device (d : DeviceMap) (c : ConnMap) (trySendOk : Bool)
    (req : WakeRequest) : HttpResp × List (Nat × String) :=
  match mapGet d req.esp_id with
  | none => (respDeviceNotFound, [])
  | some device =>
    if device.password != req.password then (respUnauthorized, [])
    else
      match mapGet c req.esp_id with
      | none => (respDeviceOffline, [])
      | some addr =>
        if trySendOk then
          (respWakeSent, [(addr, wakeCommandJson device.mac_address)])
        else (respDeliveryFailed, [])

/-- The WsMessage handler (main.rs lines 337-343): each pushed message
is written to the connection as exactly one text frame holding the
payload verbatim (`ctx.text(msg.0)`). -/
def wsHandle (msg : String) : List String := [msg]

/-- Connection registration on actor start (main.rs lines 348-352):
inserts the connection address under its claimed esp_id. -/
def wsStarted (c : ConnMap) (id : String) (a : Nat) : ConnMap :=
  mapInsert c id a

/-- Connection deregistration on actor stop (main.rs lines 354-358):
`connections.remove(&self.esp_id)` removes the entry for the esp_id
unconditionally; the stored address is not compared with the address of
the stopping connection. -/
def wsStopped (c : ConnMap) (id : String) : ConnMap :=
  mapRemove c id

/-- State of a mutual-exclusion lock as seen by `.lock()`: healthy, or
poisoned (the Err case). -/
inductive LockState
  | healthy
  | poisoned
  deriving DecidableEq, Repr

/-- Result of running a handler whose lock acquisitions may panic:
either a returned value or a panic of the task (from `.unwrap()` on a
poisoned lock). -/
inductive Outcome (α : Type)
  | result (a : α)
  | panicked
  deriving DecidableEq, Repr

/-- register_device with the state of the devices lock made explicit:
line 75 calls `.lock().unwrap()`, which panics when the lock is
poisoned. -/
def register_device_locked (lock : LockState) (d : DeviceMap)
    (dev : Device) (sv : SaveResult) : Outcome (DeviceMap × HttpResp) :=
  match lock with
  | .poisoned => .panicked
  | .healthy => .result (register_device d dev sv)

/-- Response of the get_devices handler (main.rs lines 92-111): the
serialized list of catalog values on success, or the internal error
response. -/
inductive DevicesResp
  | okList (l : List Device)
  | internalError (msg : String)
  deriving DecidableEq, Repr

/-- The get_devices handler (main.rs lines 92-111): the one handler
that matches on the lock result, returning an internal-error response
to the caller when the lock is poisoned instead of panicking. -/
def get_devices (lock : LockState) (d : DeviceMap) : DevicesResp :=
  match lock with
  | .poisoned => .internalError "Failed to get device list"
  | .healthy => .okList (d.map (fun p => p.2))

/-- wake_device with the states of both locks made explicit: line 121
unwraps the devices lock before the catalog read, and line 133 unwraps
the connections lock, which is only reached after the password check
passes. Both unwraps panic on a poisoned lock. -/
def wake_device_locked (devLock connLock : LockState) (d : DeviceMap)
    (c : ConnMap) (trySendOk : Bool) (req : WakeRequest) :
    Outcome (HttpResp × List (Nat × String)) :=
  match devLock with
  | .poisoned => .panicked
  | .healthy =>
    match mapGet d req.esp_id with
    | none => .result (respDeviceNotFound, [])
    | some device =>
      if device.password != req.password then .result (respUnauthorized, [])
      else
        match connLock with
        | .poisoned => .panicked
        | .healthy =>
          match mapGet c req.esp_id with
          | none => .result (respDeviceOffline, [])
          | some addr =>
            if trySendOk then
              .result (respWakeSent, [(addr, wakeCommandJson device.mac_address)])
            else .result (respDeliveryFailed, [])

/-- Connection registration with the connections lock state explicit:
line 350 calls `.lock().unwrap()`. -/
def ws_started_locked (lock : LockState) (c : ConnMap) (id : String)
    (a : Nat) : Outcome ConnMap :=
  match lock with
  | .poisoned => .panicked
  | .healthy => .result (wsStarted c id a)

/-- Connection deregistration with the connections lock state explicit:
line 356 calls `.lock().unwrap()`. -/
def ws_stopped_locked (lock : LockState) (c : ConnMap) (id : String) :
    Outcome ConnMap :=
  match lock with
  | .poisoned => .panicked
  | .healthy => .result (wsStopped c id)

/-- Authentication classification of a wake request, following the spec
contract `authenticate(id, secret)` of section 4.1; the source inlines
exactly this logic in wake_device (main.rs lines 120-130). -/
inductive AuthResult
  | Unknown
  | Denied
  | Granted
  deriving DecidableEq, Repr

/-- The three-way classification: Unknown when no record exists for the
id, Denied when the stored password differs from the supplied secret
(String equality in this embedding is byte-exact and case-sensitive,
as Rust String equality is), Granted otherwise. -/
def authenticate (d : DeviceMap) (id secret : String) : AuthResult :=
  match mapGet d id with
  | none => .Unknown
  | some dev => if dev.password != secret then .Denied else .Granted

/-- The claimed id extracted by ws_index (main.rs line 380):
`query.get("esp_id").cloned().unwrap_or_default()`, the empty string
when the query carries no esp_id parameter. -/
def ws_index_claimed_id (query : List (String × String)) : String :=
  (mapGet query "esp_id").getD ""

/-- Connection establishment via ws_index followed by the actor start
callback: the registry gains an entry for the claimed id. No field of
the device catalog is consulted and no credential is taken. -/
def ws_connect (query : List (String × String)) (c : ConnMap) (a : Nat) :
    ConnMap :=
  wsStarted c (ws_index_claimed_id query) a

/-- Result of `fs::read_to_string` at startup (main.rs line 45). -/
inductive ReadResult
  | ok (content : String)
  | ioError
  deriving Repr

/-- The catalog produced by `DeviceStore::new` (main.rs lines 40-55)
from the read outcome: a successful read is parsed with
`serde_json::from_str(..).unwrap_or_default()` (parse failure yields the
empty map), and a read error yields the empty map. The parse function is
a parameter modelling serde_json deserialization; no error is ever
surfaced on this path. -/
def deviceStore_new_devices (read : ReadResult)
    (parse : String → Option DeviceMap) : DeviceMap :=
  match read with
  | .ok content => (parse content).getD []
  | .ioError => []

/-- Whether `DeviceStore::new` creates a fresh empty snapshot file
(main.rs lines 41-43): only when the file does not already exist. -/
def deviceStore_new_creates_file (fileExists : Bool) : Bool :=
  !fileExists

/-- A concrete device record used by witnesses. -/
def exDevice : Device :=
  { esp_id := "A", mac_address := "AA:BB:CC:DD:EE:FF",
    description := "desk", password := "foo" }

theorem filter_ne_filter_eq {α : Type} (m : List (String × α)) (k : String) :
    ((m.filter fun p => p.1 != k).filter fun p => p.1 == k) = [] := by
  induction m with
  | nil => rfl
  | cons p t ih =>
    by_cases h : p.1 = k
    · simp [List.filter_cons, h, ih]
    · simp [List.filter_cons, h, ih]

theorem mapGet_mapInsert_self {α : Type} (m : List (String × α)) (k : String)
    (v : α) : mapGet (mapInsert m k v) k = some v := by
  simp [mapGet, mapInsert, List.find?_cons]

theorem mapGet_mapRemove_self {α : Type} (m : List (String × α)) (k : String) :
    mapGet (mapRemove m k) k = none := by
  have h : (m.filter fun p => p.1 != k).find? (fun p => p.1 == k) = none := by
    rw [List.find?_eq_none]
    intro x hx
    have := (List.mem_filter.mp hx).2
    simpa using this
  simp [mapGet, mapRemove, h]

theorem countKey_mapInsert_self {α : Type} (m : List (String × α)) (k : String)
    (v : α) : countKey (mapInsert m k v) k = 1 := by
  simp [countKey, mapInsert, List.filter_cons, filter_ne_filter_eq]

/-- Consistency of the two wake_device embeddings: with both locks
healthy, the lock-explicit handler returns exactly what the plain
handler computes. -/
theorem wake_device_locked_healthy (d : DeviceMap) (c : ConnMap) (s : Bool)
    (req : WakeRequest) :
    wake_device_locked .healthy .healthy d c s req =
      .result (wake_device d c s req) := by
  unfold wake_device_locked wake_device
  cases mapGet d req.esp_id with
  | none => rfl
  | some device =>
    by_cases hp : device.password == req.password
    · simp only [bne, hp, Bool.not_true, Bool.false_eq_true, if_false]
      cases mapGet c req.esp_id with
      | none => rfl
      | some addr => cases s <;> rfl
    · simp only [bne, hp, Bool.not_false, if_true]

/-- Claim C1 counterexample: after register("A", handle 1) then
register("A", handle 2), the stop of the connection holding handle 1
removes the registry entry for "A" outright, so lookup does not return
handle 2 as the claim states. -/
theorem C1_counterexample :
    ¬ mapGet (wsStopped (wsStarted (wsStarted [] "A" 1) "A" 2) "A") "A"
        = some 2 := by
  decide

/-- Claim C1 (amended): deregistration on connection stop removes the
registry entry for the id unconditionally, without comparing the stored
handle with the handle of the stopping connection; hence after
register(id, h1), register(id, h2), deregister via the stop of h1, the
lookup for id returns nothing (the newer handle h2 is evicted). -/
theorem C1_amended (c : ConnMap) (id : String) (h1 h2 : Nat) :
    mapGet (wsStopped (wsStarted (wsStarted c id h1) id h2) id) id = none :=
  mapGet_mapRemove_self _ id

/-- Claim C2: the wake handler has exactly five possible responses, and
they arise precisely as claimed: device not found when no record exists
for the id; unauthorized when the record exists but the password
differs (regardless of connection state); device offline when the
record matches but no connection is registered; wake sent when the send
succeeds; delivery failed when the send errors. The five responses are
pairwise distinct. -/
theorem C2_wake_outcomes (d : DeviceMap) (c : ConnMap) (s : Bool)
    (req : WakeRequest) :
    (wake_device d c s req).1 ∈
      [respDeviceNotFound, respUnauthorized, respDeviceOffline,
        respWakeSent, respDeliveryFailed]
    ∧ (mapGet d req.esp_id = none →
        (wake_device d c s req).1 = respDeviceNotFound)
    ∧ (∀ dev, mapGet d req.esp_id = some dev → dev.password ≠ req.password →
        (wake_device d c s req).1 = respUnauthorized)
    ∧ (∀ dev, mapGet d req.esp_id = some dev → dev.password = req.password →
        mapGet c req.esp_id = none →
        (wake_device d c s req).1 = respDeviceOffline)
    ∧ (∀ dev a, mapGet d req.esp_id = some dev →
        dev.password = req.password → mapGet c req.esp_id = some a →
        s = true → (wake_device d c s req).1 = respWakeSent)
    ∧ (∀ dev a, mapGet d req.esp_id = some dev →
        dev.password = req.password → mapGet c req.esp_id = some a →
        s = false → (wake_device d c s req).1 = respDeliveryFailed)
    ∧ List.Pairwise (fun x y => x ≠ y)
        [respDeviceNotFound, respUnauthorized, respDeviceOffline,
          respWakeSent, respDeliveryFailed] := by
  refine ⟨?_, ?_, ?_, ?_, ?_, ?_, ?_⟩
  · cases hd : mapGet d req.esp_id with
    | none => simp [wake_device, hd]
    | some dev =>
      by_cases hp : dev.password = req.password
      · cases hc : mapGet c req.esp_id with
        | none => simp [wake_device, hd, hp, hc]
        | some a => cases s <;> simp [wake_device, hd, hp, hc]
      · simp [wake_device, hd, hp]
  · intro h; simp [wake_device, h]
  · intro dev h hne; simp [wake_device, h, hne]
  · intro dev h hp hc; simp [wake_device, h, hp, hc]
  · intro dev a h hp hc hs; simp [wake_device, h, hp, hc, hs]
  · intro dev a h hp hc hs; simp [wake_device, h, hp, hc, hs]
  · decide

/-- Witness for claim C2 at a concrete input: an unknown id yields the
device-not-found response. -/
theorem C2_wake_outcomes_witness :
    (wake_device [] [] true { esp_id := "A", password := "x" }).1
      = respDeviceNotFound :=
  (C2_wake_outcomes [] [] true { esp_id := "A", password := "x" }).2.1 rfl

/-- Claim C3: on a dispatched wake, the live connection receives exactly
one text frame whose content is the JSON wake payload carrying the
device MAC address, and for mac AA:BB:CC:DD:EE:FF that payload is the
exact claimed string. -/
theorem C3_wake_frame (d : DeviceMap) (c : ConnMap) (req : WakeRequest)
    (dev : Device) (a : Nat) (h1 : mapGet d req.esp_id = some dev)
    (h2 : dev.password = req.password) (h3 : mapGet c req.esp_id = some a) :
    (wake_device d c true req).2 = [(a, wakeCommandJson dev.mac_address)]
    ∧ wsHandle (wakeCommandJson dev.mac_address)
        = [wakeCommandJson dev.mac_address]
    ∧ wakeCommandJson "AA:BB:CC:DD:EE:FF" =
        "\x7b\"type\":\"wake\",\"mac_address\":\"AA:BB:CC:DD:EE:FF\"\x7d" := by
  refine ⟨?_, rfl, ?_⟩
  · simp [wake_device, h1, h2, h3]
  · decide

/-- Witness for claim C3 at a concrete input: the registered connection
with address 7 receives exactly the wake frame for the stored MAC. -/
theorem C3_wake_frame_witness :
    (wake_device [("A", exDevice)] [("A", 7)] true
        { esp_id := "A", password := "foo" }).2
      = [(7, wakeCommandJson "AA:BB:CC:DD:EE:FF")] :=
  (C3_wake_frame [("A", exDevice)] [("A", 7)]
    { esp_id := "A", password := "foo" } exDevice 7 (by decide) rfl
    (by decide)).1

/-- Claim C4: authentication is a three-way classification that matches
the wake handler exactly: Unknown corresponds to the not-found response,
Denied to the unauthorized response, Granted to the three post-auth
responses; the comparison is byte-exact and case-sensitive, shown on
concrete inputs. -/
theorem C4_auth_trichotomy (d : DeviceMap) (c : ConnMap) (s : Bool)
    (req : WakeRequest) :
    (authenticate d req.esp_id req.password = .Unknown ↔
      (wake_device d c s req).1 = respDeviceNotFound)
    ∧ (authenticate d req.esp_id req.password = .Denied ↔
      (wake_device d c s req).1 = respUnauthorized)
    ∧ (authenticate d req.esp_id req.password = .Granted ↔
      (wake_device d c s req).1 ∈
        [respDeviceOffline, respWakeSent, respDeliveryFailed])
    ∧ authenticate [("A", exDevice)] "A" "Foo" = .Denied
    ∧ authenticate [("A", exDevice)] "A" "foo" = .Granted
    ∧ authenticate [] "A" "anything" = .Unknown := by
  refine ⟨?_, ?_, ?_, by decide, by decide, rfl⟩ <;>
  · cases hd : mapGet d req.esp_id with
    | none =>
      simp [authenticate, wake_device, hd, respDeviceNotFound,
        respUnauthorized, respDeviceOffline, respWakeSent, respDeliveryFailed]
    | some dev =>
      by_cases hp : dev.password = req.password
      · cases hc : mapGet c req.esp_id with
        | none =>
          simp [authenticate, wake_device, hd, hp, hc, respDeviceNotFound,
            respUnauthorized, respDeviceOffline, respWakeSent,
            respDeliveryFailed]
        | some a =>
          cases s <;>
            simp [authenticate, wake_device, hd, hp, hc, respDeviceNotFound,
              respUnauthorized, respDeviceOffline, respWakeSent,
              respDeliveryFailed]
      · simp [authenticate, wake_device, hd, hp, respDeviceNotFound,
          respUnauthorized, respDeviceOffline, respWakeSent,
          respDeliveryFailed]

/-- Witness for claim C4 at a concrete input: an id that is offline but
known, with matching password, lands among the post-auth responses via
the Granted direction of the theorem. -/
theorem C4_auth_trichotomy_witness :
    (wake_device [("A", exDevice)] [] false
        { esp_id := "A", password := "foo" }).1
      ∈ [respDeviceOffline, respWakeSent, respDeliveryFailed] :=
  ((C4_auth_trichotomy [("A", exDevice)] [] false
      { esp_id := "A", password := "foo" }).2.2.1).mp (by decide)

/-- Claim C5: registering a record and then looking up its id returns
the record unchanged, for every record and every prior catalog state,
regardless of the save outcome. -/
theorem C5_roundtrip (d : DeviceMap) (r : Device) (sv : SaveResult) :
    mapGet (register_device d r sv).1 r.esp_id = some r :=
  mapGet_mapInsert_self d r.esp_id r

/-- Claim C6: registering the same record twice leaves exactly one
catalog entry under its id, and re-registering any record whose id
coincides with an existing one replaces the whole stored record. -/
theorem C6_upsert_idempotent (d : DeviceMap) (r r2 : Device)
    (sv1 sv2 : SaveResult) :
    countKey (register_device (register_device d r sv1).1 r sv2).1
        r.esp_id = 1
    ∧ (r2.esp_id = r.esp_id →
        mapGet (register_device d r2 sv1).1 r.esp_id = some r2) := by
  refine ⟨countKey_mapInsert_self _ _ _, ?_⟩
  intro h
  rw [← h]
  exact mapGet_mapInsert_self _ _ _

/-- Witness for claim C6 at a concrete input: re-registering id A with a
new description replaces the whole record. -/
theorem C6_upsert_idempotent_witness :
    mapGet (register_device [("A", exDevice)]
        { exDevice with description := "new" } .ok).1 "A"
      = some { exDevice with description := "new" } :=
  (C6_upsert_idempotent [("A", exDevice)] exDevice
    { exDevice with description := "new" } .ok .ok).2 rfl

/-- Claim C7: when the durable save fails with message e, the in-memory
catalog has already been mutated to contain the record (the insert is
not rolled back), the caller receives the 500 response whose body is the
failure description, and the record is served by subsequent lookups. -/
theorem C7_nonatomic_persistence (d : DeviceMap) (r : Device) (e : String) :
    (register_device d r (.err e)).1 = mapInsert d r.esp_id r
    ∧ (register_device d r (.err e)).2 = { status := 500, body := e }
    ∧ mapGet (register_device d r (.err e)).1 r.esp_id = some r :=
  ⟨rfl, rfl, mapGet_mapInsert_self d r.esp_id r⟩

/-- Claim C8 counterexample: the register handler with a poisoned
devices lock does not return any response at all (it panics via unwrap),
so a poisoned lock is not reported as an internal error by every handler
touching the shared mappings. -/
theorem C8_lock_counterexample :
    ¬ ∃ r : DeviceMap × HttpResp,
        register_device_locked .poisoned [] exDevice .ok
          = Outcome.result r := by
  rintro ⟨r, h⟩
  simp [register_device_locked] at h

/-- Claim C8 (amended): only the list-devices handler reports a poisoned
lock as an internal error to its caller; the register handler, the wake
handler (on either of its two lock acquisitions, the second being
reached once the password check passes), and the connection
registration and deregistration callbacks unwrap the lock and panic for
that request instead of returning a response. -/
theorem C8_amended_lock_behavior (d : DeviceMap) (c : ConnMap)
    (dev : Device) (sv : SaveResult) (cl : LockState) (s : Bool)
    (req : WakeRequest) (id : String) (a : Nat) :
    get_devices .poisoned d = .internalError "Failed to get device list"
    ∧ register_device_locked .poisoned d dev sv = .panicked
    ∧ wake_device_locked .poisoned cl d c s req = .panicked
    ∧ (∀ devq, mapGet d req.esp_id = some devq →
        devq.password = req.password →
        wake_device_locked .healthy .poisoned d c s req = .panicked)
    ∧ ws_started_locked .poisoned c id a = .panicked
    ∧ ws_stopped_locked .poisoned c id = .panicked := by
  refine ⟨rfl, rfl, rfl, ?_, rfl, rfl⟩
  intro devq h hp
  simp [wake_device_locked, h, hp]

/-- Witness for the amended claim C8 at a concrete input: the wake
handler reaching its poisoned connections lock panics. -/
theorem C8_amended_lock_behavior_witness :
    wake_device_locked .healthy .poisoned [("A", exDevice)] [] true
      { esp_id := "A", password := "foo" } = .panicked :=
  (C8_amended_lock_behavior [("A", exDevice)] [] exDevice .ok .healthy true
    { esp_id := "A", password := "foo" } "A" 0).2.2.2.1 exDevice (by decide)
    rfl

/-- Claim C9: connection establishment registers the claimed id into
the registry with no credential check and no catalog consultation, so
the registry can hold an entry for an id absent from the catalog, and a
connection supplying no esp_id parameter is registered under the empty
string. -/
theorem C9_no_connect_validation (query : List (String × String))
    (catalog : DeviceMap) (c : ConnMap) (a : Nat)
    (hAbsent : mapGet catalog (ws_index_claimed_id query) = none) :
    mapGet (ws_connect query c a) (ws_index_claimed_id query) = some a
    ∧ mapGet catalog (ws_index_claimed_id query) = none
    ∧ (mapGet query "esp_id" = none → ws_index_claimed_id query = "") := by
  refine ⟨mapGet_mapInsert_self _ _ _, hAbsent, ?_⟩
  intro h
  simp [ws_index_claimed_id, h]

/-- Witness for claim C9 at a concrete input: a connection with an empty
query, facing an empty catalog, is registered under the empty-string
id. -/
theorem C9_no_connect_validation_witness :
    mapGet (ws_connect [] [] 3) (ws_index_claimed_id []) = some 3 :=
  (C9_no_connect_validation [] [] [] 3 rfl).1

/-- Claim C10: at startup, an existing file whose content fails to
parse, or an unreadable file, silently yields the empty catalog (the
constructor surfaces no error on these paths), and a fresh empty
snapshot file is created exactly when the file does not exist. -/
theorem C10_startup_resilience (parse : String → Option DeviceMap)
    (content : String) (hbad : parse content = none) :
    deviceStore_new_devices (.ok content) parse = []
    ∧ deviceStore_new_devices .ioError parse = []
    ∧ deviceStore_new_creates_file true = false
    ∧ deviceStore_new_creates_file false = true := by
  refine ⟨?_, rfl, rfl, rfl⟩
  simp [deviceStore_new_devices, hbad]

/-- Witness for claim C10 at a concrete input: a parse function
rejecting the content yields the empty catalog. -/
theorem C10_startup_resilience_witness :
    deviceStore_new_devices (.ok "not json") (fun _ => none) = [] :=
  (C10_startup_resilience (fun _ => none) "not json" rfl).1

end WolServer
